import Mathlib

/-!
Verification of `media_kit_video/windows/d3d11_renderer.cc` (class
`D3D11Renderer`), a Direct3D 11 shared-texture renderer.

The embedding mirrors the fields of a `D3D11Renderer` instance and the
control flow of its member functions.  COM pointers are modelled as
`Option Nat` (`none` is a null pointer; the `Nat` is the object's
identity), the exported `HANDLE handle_` likewise as `Option Nat`.
The outcomes of external Direct3D / DXGI / Win32 calls (`HRESULT`s and
the values written through out-parameters) are supplied by oracle
records, so every theorem quantifies over all possible behaviours of
the graphics driver.  Each operation also returns the list of external
calls it performed, in order, so that properties such as "no resource
is released", "the mutex is released exactly once" and "which adapter
is passed to `D3D11CreateDevice`" can be stated.
-/

/-- Driver type argument passed to `D3D11CreateDevice`.  The source uses
only `D3D_DRIVER_TYPE_UNKNOWN` (initial value) and
`D3D_DRIVER_TYPE_HARDWARE` (set on Windows 10 RTM or greater). -/
inductive DriverType where
  | unknown
  | hardware
deriving DecidableEq, Repr

/-- Timeout argument of `WaitForSingleObject`.  `CopyTexture` passes
`INFINITE`. -/
inductive Timeout where
  | infinite
  | millis (n : Nat)
deriving DecidableEq, Repr

/-- External calls performed by the renderer, recorded in order.  Only the
calls that touch resources or synchronization are instrumented. -/
inductive Event where
  | releaseTexture
  | releaseContext
  | releaseDevice
  | createTexture2D (width height : Int)
  | getSharedHandle
  | addRefTexture
  | enumAdapters (index : Nat)
  | d3d11CreateDevice (adapter : Option Nat) (driver : DriverType)
  | waitMutex (timeout : Timeout)
  | flushContext
  | releaseMutex
  | closeMutex
deriving DecidableEq, Repr

/-- The fields of a `D3D11Renderer` instance:
`width_`, `height_` (`int32_t`), `d3d_11_device_` (`ID3D11Device*`),
`d3d_11_device_context_` (`ID3D11DeviceContext*`),
`shared_texture_` (`ComPtr<ID3D11Texture2D>`) and `handle_` (`HANDLE`).
The scoped mutex handle is abstract (its creation always succeeds in the
model) and carries no data relevant to the claims. -/
structure RendererState where
  width : Int
  height : Int
  device : Option Nat
  context : Option Nat
  texture : Option Nat
  handle : Option Nat
deriving DecidableEq, Repr

/-- Oracle for the external calls inside `CreateD3D11Device`:
whether the host is Windows 10 RTM or greater
(`Utils::IsWindows10RTMOrGreater`), whether `CreateDXGIFactory` yields a
factory, what `EnumAdapters(0, ...)` writes (`none` on failure), and what
`D3D11CreateDevice` produces (`none` when the `HRESULT` is a failure,
otherwise the device and immediate context written through the
out-parameters). -/
structure DeviceEnv where
  isWindows10RTMOrGreater : Bool
  createDXGIFactory : Bool
  enumAdapters0 : Option Nat
  d3d11CreateDevice : Option (Nat × Nat)
deriving DecidableEq, Repr

/-- Oracle for the external calls inside `CreateTexture`: what
`ID3D11Device::CreateTexture2D` writes (`none` on failed `HRESULT`),
whether `ComPtr::As` (a `QueryInterface` for `IDXGIResource`) succeeds,
and what `IDXGIResource::GetSharedHandle` writes (`none` on failure). -/
structure TexOracle where
  createTexture2D : Option Nat
  asResource : Bool
  getSharedHandle : Option Nat
deriving DecidableEq, Repr

/-- Embeds `D3D11Renderer::CleanUp(bool release_device)`:
releases and nulls `shared_texture_` when non-null; when
`release_device` is set, additionally releases and nulls
`d3d_11_device_context_` and `d3d_11_device_`.  Note that `handle_` is
never cleared. -/
def cleanUp (s : RendererState) (release_device : Bool) :
    RendererState × List Event :=
  let r1 : RendererState × List Event :=
    match s.texture with
    | some _ => ({ s with texture := none }, [Event.releaseTexture])
    | none => (s, [])
  if release_device then
    let r2 : RendererState × List Event :=
      match r1.1.context with
      | some _ => ({ r1.1 with context := none }, [Event.releaseContext])
      | none => (r1.1, [])
    let r3 : RendererState × List Event :=
      match r2.1.device with
      | some _ => ({ r2.1 with device := none }, [Event.releaseDevice])
      | none => (r2.1, [])
    (r3.1, r1.2 ++ r2.2 ++ r3.2)
  else
    (r1.1, r1.2)

/-- Embeds `D3D11Renderer::CreateD3D11Device()`:
if `d3d_11_device_` is already non-null, returns `true` at once.
Otherwise selects the adapter and driver type (`nullptr` +
`D3D_DRIVER_TYPE_HARDWARE` on Windows 10 RTM or greater; on older
builds `D3D_DRIVER_TYPE_UNKNOWN` with the adapter obtained from
`CreateDXGIFactory` / `EnumAdapters(0, ...)`, which leaves the adapter
null when the factory or the enumeration yields nothing), then calls
`D3D11CreateDevice`; a failed `HRESULT` makes the function return
`false` with the fields unchanged.  The subsequent
`IDXGIDevice::SetGPUThreadPriority` is best-effort and the feature-level
logging is diagnostic output; neither changes the modelled state. -/
def createD3D11Device (s : RendererState) (env : DeviceEnv) :
    Bool × RendererState × List Event :=
  if s.device.isSome then
    (true, s, [])
  else
    let sel : Option Nat × DriverType × List Event :=
      if env.isWindows10RTMOrGreater then
        (none, DriverType.hardware, [])
      else if env.createDXGIFactory then
        (env.enumAdapters0, DriverType.unknown, [Event.enumAdapters 0])
      else
        (none, DriverType.unknown, [])
    match env.d3d11CreateDevice with
    | none =>
        (false, s, sel.2.2 ++ [Event.d3d11CreateDevice sel.1 sel.2.1])
    | some dc =>
        (true, { s with device := some dc.1, context := some dc.2 },
         sel.2.2 ++ [Event.d3d11CreateDevice sel.1 sel.2.1])

/-- Embeds `D3D11Renderer::CreateTexture()`:
fills a `D3D11_TEXTURE2D_DESC` with `width_`/`height_` and calls
`ID3D11Device::CreateTexture2D` into `shared_texture_` (taking the
address of the `ComPtr` clears it first, and it is already null on every
call path); on failed `HRESULT` returns `false`.  Then `ComPtr::As` to
`IDXGIResource` (failure returns `false` with the new texture kept),
then `IDXGIResource::GetSharedHandle` into `handle_` (failure returns
`false`, leaving `handle_` at its previous value), then
`shared_texture_->AddRef()` and returns `true`. -/
def createTexture (s : RendererState) (o : TexOracle) :
    Bool × RendererState × List Event :=
  match o.createTexture2D with
  | none =>
      (false, { s with texture := none },
       [Event.createTexture2D s.width s.height])
  | some t =>
      let s1 := { s with texture := some t }
      if o.asResource then
        match o.getSharedHandle with
        | none =>
            (false, s1,
             [Event.createTexture2D s.width s.height, Event.getSharedHandle])
        | some hd =>
            (true, { s1 with handle := some hd },
             [Event.createTexture2D s.width s.height, Event.getSharedHandle,
              Event.addRefTexture])
      else
        (false, s1, [Event.createTexture2D s.width s.height])

/-- Embeds `D3D11Renderer::SetSize(int32_t width, int32_t height)`:
returns immediately when the requested dimensions equal the current
ones; otherwise stores the new dimensions, runs `CleanUp(false)` and
then `CreateTexture()` (whose `bool` result is discarded). -/
def setSize (s : RendererState) (width height : Int) (o : TexOracle) :
    RendererState × List Event :=
  if width = s.width ∧ height = s.height then
    (s, [])
  else
    let s1 := { s with width := width, height := height }
    let r2 := cleanUp s1 false
    let r3 := createTexture r2.1 o
    (r3.2.1, r2.2 ++ r3.2.2)

/-- Embeds `D3D11Renderer::CopyTexture()`:
`WaitForSingleObject(mutex_, INFINITE)`, then
`d3d_11_device_context_->Flush()` if the context is non-null, then
`ReleaseMutex(mutex_)`.  No renderer field is written. -/
def copyTexture (s : RendererState) : RendererState × List Event :=
  (s,
   [Event.waitMutex Timeout.infinite] ++
     (if s.context.isSome then [Event.flushContext] else []) ++
     [Event.releaseMutex])

/-- Embeds the constructor `D3D11Renderer::D3D11Renderer(width, height)`
together with the static `instance_count_` counter: the member fields
start null (the in-class member default values live in the missing
header `d3d11_renderer.h`; modelled from the spec, which has the device,
texture and exported handle created only by the construction steps),
the mutex is created, then `CreateD3D11Device()` and `CreateTexture()`
run in order; if either returns `false` the constructor throws
`std::runtime_error` (no object reaches the caller and
`instance_count_` is unchanged); on success `instance_count_++`. -/
def construct (width height : Int) (env : DeviceEnv) (o : TexOracle)
    (count : Int) : Except Unit RendererState × Int :=
  let s0 : RendererState :=
    { width := width, height := height, device := none, context := none,
      texture := none, handle := none }
  let r1 := createD3D11Device s0 env
  if r1.1 then
    let r2 := createTexture r1.2.1 o
    if r2.1 then
      (Except.ok r2.2.1, count + 1)
    else
      (Except.error (), count)
  else
    (Except.error (), count)

/-- Embeds the destructor `D3D11Renderer::~D3D11Renderer()`:
`CleanUp(true)`, then `ReleaseMutex(mutex_)`, `CloseHandle(mutex_)`,
and `instance_count_--`. -/
def destruct (s : RendererState) (count : Int) :
    RendererState × Int × List Event :=
  let r := cleanUp s true
  (r.1, count - 1, r.2 ++ [Event.releaseMutex, Event.closeMutex])

/-- The states a live `D3D11Renderer` instance can be in: the state a
successful constructor produced, closed under `SetSize` (with any
driver behaviour) and `CopyTexture`. -/
inductive Reachable : RendererState → Prop
  | ofConstruct (width height : Int) (env : DeviceEnv) (o : TexOracle)
      (count : Int) (s : RendererState) :
      (construct width height env o count).1 = Except.ok s → Reachable s
  | ofSetSize (s : RendererState) (width height : Int) (o : TexOracle) :
      Reachable s → Reachable (setSize s width height o).1
  | ofCopyTexture (s : RendererState) :
      Reachable s → Reachable (copyTexture s).1

/-- A driver environment in which everything succeeds. -/
def exEnv : DeviceEnv :=
  { isWindows10RTMOrGreater := true, createDXGIFactory := true,
    enumAdapters0 := none, d3d11CreateDevice := some (1, 2) }

/-- A texture oracle in which everything succeeds. -/
def exOracleOk : TexOracle :=
  { createTexture2D := some 10, asResource := true,
    getSharedHandle := some 20 }

/-- A texture oracle in which `CreateTexture2D` itself fails. -/
def exOracleFail : TexOracle :=
  { createTexture2D := none, asResource := true, getSharedHandle := none }

/-- The state of the renderer right after `construct 1920 1080 exEnv
exOracleOk`. -/
def exState1 : RendererState :=
  { width := 1920, height := 1080, device := some 1, context := some 2,
    texture := some 10, handle := some 20 }

/-- The initial field values of a renderer before construction runs. -/
def exState0 : RendererState :=
  { width := 1920, height := 1080, device := none, context := none,
    texture := none, handle := none }

/-- A driver environment for a pre-Windows-10-RTM host whose DXGI factory
is available but yields no adapter. -/
def exEnvOld : DeviceEnv :=
  { isWindows10RTMOrGreater := false, createDXGIFactory := true,
    enumAdapters0 := none, d3d11CreateDevice := some (1, 2) }

/-- `CleanUp` keeps `width_`, `height_` and `handle_` unchanged and always
leaves `shared_texture_` null. -/
theorem cleanUp_spec (s : RendererState) (b : Bool) :
    (cleanUp s b).1.width = s.width ∧ (cleanUp s b).1.height = s.height ∧
    (cleanUp s b).1.handle = s.handle ∧ (cleanUp s b).1.texture = none := by
  obtain ⟨w, h, d, c, t, hd⟩ := s
  cases b <;> cases t <;> cases c <;> cases d <;> simp [cleanUp]

/-- `CreateTexture` keeps `width_` and `height_` unchanged and always
issues the `CreateTexture2D` call with the current dimensions. -/
theorem createTexture_dims (s : RendererState) (o : TexOracle) :
    (createTexture s o).2.1.width = s.width ∧
    (createTexture s o).2.1.height = s.height ∧
    Event.createTexture2D s.width s.height ∈ (createTexture s o).2.2 := by
  cases hcr : o.createTexture2D <;> cases har : o.asResource <;>
    cases hsh : o.getSharedHandle <;> simp [createTexture, hcr, har, hsh]

/-- `CreateTexture` never clears `handle_`: it either leaves it unchanged
or overwrites it with a freshly obtained shared handle. -/
theorem createTexture_handle (s : RendererState) (o : TexOracle)
    (hs : s.handle.isSome = true) :
    (createTexture s o).2.1.handle.isSome = true := by
  cases hcr : o.createTexture2D <;> cases har : o.asResource <;>
    cases hsh : o.getSharedHandle <;> simp [createTexture, hcr, har, hsh, hs]

/-- When `CreateTexture2D` itself fails, `CreateTexture` leaves no texture
stored and `handle_` exactly as it was. -/
theorem createTexture_fail_alloc (s : RendererState) (o : TexOracle)
    (hfail : o.createTexture2D = none) :
    (createTexture s o).2.1.texture = none ∧
    (createTexture s o).2.1.handle = s.handle := by
  simp [createTexture, hfail]

/-- A successful `CreateTexture` leaves a non-null `handle_` (the freshly
obtained shared handle). -/
theorem createTexture_true_handle (s : RendererState) (o : TexOracle)
    (h : (createTexture s o).1 = true) :
    (createTexture s o).2.1.handle.isSome = true := by
  cases hcr : o.createTexture2D <;> cases har : o.asResource <;>
    cases hsh : o.getSharedHandle <;> simp_all [createTexture]

/-- A successfully constructed renderer has a non-null exported handle. -/
theorem construct_ok_handle (width height : Int) (env : DeviceEnv)
    (o : TexOracle) (count : Int) (s : RendererState)
    (h : (construct width height env o count).1 = Except.ok s) :
    s.handle.isSome = true := by
  unfold construct at h
  simp only [] at h
  split at h
  · split at h
    · next h2 =>
        simp only [Except.ok.injEq] at h
        exact h ▸ createTexture_true_handle _ o h2
    · simp at h
  · simp at h

/-- In every reachable state of a live renderer the exported handle is
non-null: a successful construction sets it, and no later operation
ever clears it (`CleanUp` nulls only the texture pointer). -/
theorem reachable_handle (s : RendererState) (hr : Reachable s) :
    s.handle.isSome = true := by
  induction hr with
  | ofConstruct width height env o count t h =>
      exact construct_ok_handle width height env o count t h
  | ofSetSize t width height o hrt ih =>
      unfold setSize
      split
      · exact ih
      · refine createTexture_handle _ o ?_
        rw [(cleanUp_spec { t with width := width, height := height }
          false).2.2.1]
        exact ih
  | ofCopyTexture t hrt ih => exact ih

/-- C1: amended.  For every reachable state of a renderer instance and
after every operation, the exported handle field is non-null whenever a
shared texture exists.  (The converse direction of the claimed
equivalence is false — see the counterexample: `CleanUp` never clears
`handle_`, so after a failed resize the handle keeps its previous
non-null value while no texture exists.) -/
theorem c1_texture_implies_handle (s : RendererState) (hr : Reachable s)
    (_ht : s.texture.isSome = true) : s.handle.isSome = true :=
  reachable_handle s hr

/-- Witness for C1: the state constructed with dimensions 1920×1080 under
an all-succeeding driver has a texture, and the theorem yields that its
exported handle is non-null. -/
theorem c1_witness : exState1.handle.isSome = true :=
  c1_texture_implies_handle exState1
    (Reachable.ofConstruct 1920 1080 exEnv exOracleOk 0 exState1 rfl)
    (by decide)

/-- Counterexample to C1 as stated: construct at 1920×1080 (all driver
calls succeed), then resize to 1280×720 with `CreateTexture2D` failing.
The resulting reachable state has no texture but its exported handle
field still holds the old non-null value, so "handle non-null iff a
texture exists" is false. -/
theorem c1_counterexample :
    (construct 1920 1080 exEnv exOracleOk 0).1 = Except.ok exState1 ∧
    (setSize exState1 1280 720 exOracleFail).1.texture = none ∧
    ¬((setSize exState1 1280 720 exOracleFail).1.handle.isSome = true ↔
      (setSize exState1 1280 720 exOracleFail).1.texture.isSome = true) :=
  ⟨rfl, rfl, by decide⟩

/-- C2: amended.  For every resize call with dimensions different from
the current ones, if allocation of the new texture fails, the instance
is left with no texture, but the exported handle is NOT nulled: it
retains its previous (now stale) value until the next successful
resize overwrites it; no retry is attempted. -/
theorem c2_failed_resize_state (s : RendererState) (width height : Int)
    (o : TexOracle) (hne : ¬(width = s.width ∧ height = s.height))
    (hfail : o.createTexture2D = none) :
    (setSize s width height o).1.texture = none ∧
    (setSize s width height o).1.handle = s.handle := by
  unfold setSize
  rw [if_neg hne]
  refine ⟨(createTexture_fail_alloc _ o hfail).1, ?_⟩
  rw [(createTexture_fail_alloc _ o hfail).2]
  exact (cleanUp_spec { s with width := width, height := height } false).2.2.1

/-- Witness for C2 (amended): resizing the constructed 1920×1080 state to
1024×768 with a failing `CreateTexture2D` leaves no texture and the
handle field unchanged. -/
theorem c2_witness :
    (setSize exState1 1024 768 exOracleFail).1.texture = none ∧
    (setSize exState1 1024 768 exOracleFail).1.handle = exState1.handle :=
  c2_failed_resize_state exState1 1024 768 exOracleFail (by decide) rfl

/-- Counterexample to C2 as stated: after constructing at 1920×1080 and
resizing to 1024×768 with `CreateTexture2D` failing, the instance has no
texture but the exported handle is not null — it still holds the old
handle value, contradicting "a null exported handle". -/
theorem c2_counterexample :
    (construct 1920 1080 exEnv exOracleOk 0).1 = Except.ok exState1 ∧
    (setSize exState1 1024 768 exOracleFail).1.texture = none ∧
    ¬((setSize exState1 1024 768 exOracleFail).1.handle = none) :=
  ⟨rfl, rfl, by decide⟩

/-- C3: For all positive width and height, construction either yields a
renderer whose exported handle is non-null or fails (the constructor
throws, so the caller receives no partial object — modelled by
`Except.error`); it never yields a renderer with a null exported
handle, and the live-instance counter `instance_count_` is incremented
exactly when construction succeeds. -/
theorem c3_construction_handle_and_count (width height : Int)
    (env : DeviceEnv) (o : TexOracle) (count : Int)
    (_hw : 0 < width) (_hh : 0 < height) :
    (∀ s, (construct width height env o count).1 = Except.ok s →
      s.handle.isSome = true) ∧
    (construct width height env o count).2 =
      (if ((construct width height env o count).1.toOption).isSome
       then count + 1 else count) := by
  refine ⟨fun s h => construct_ok_handle width height env o count s h, ?_⟩
  unfold construct
  simp only []
  split
  · split <;> simp [Except.toOption]
  · simp [Except.toOption]

/-- Witness for C3 at (1920, 1080) with an all-succeeding driver. -/
theorem c3_witness :
    (∀ s, (construct 1920 1080 exEnv exOracleOk 0).1 = Except.ok s →
      s.handle.isSome = true) ∧
    (construct 1920 1080 exEnv exOracleOk 0).2 =
      (if ((construct 1920 1080 exEnv exOracleOk 0).1.toOption).isSome
       then 0 + 1 else 0) :=
  c3_construction_handle_and_count 1920 1080 exEnv exOracleOk 0
    (by decide) (by decide)

/-- C4: For every reachable renderer state, destruction closes the OS
synchronization handle exactly once (one `ReleaseMutex` and one
`CloseHandle` on the mutex) and decrements the live-instance counter by
exactly one, whatever texture/context/device state the instance is in
(including states left by a failed resize). -/
theorem c4_destruction_releases_once (s : RendererState) (count : Int)
    (_hr : Reachable s) :
    (destruct s count).2.1 = count - 1 ∧
    ((destruct s count).2.2).count Event.closeMutex = 1 ∧
    ((destruct s count).2.2).count Event.releaseMutex = 1 := by
  obtain ⟨w, h, d, c, t, hd⟩ := s
  refine ⟨rfl, ?_, ?_⟩ <;>
    cases t <;> cases c <;> cases d <;>
      simp [destruct, cleanUp, List.count_cons, List.count_nil]

/-- Witness for C4: destroying the constructed 1920×1080 renderer at
counter value 1. -/
theorem c4_witness :
    (destruct exState1 1).2.1 = 1 - 1 ∧
    ((destruct exState1 1).2.2).count Event.closeMutex = 1 ∧
    ((destruct exState1 1).2.2).count Event.releaseMutex = 1 :=
  c4_destruction_releases_once exState1 1
    (Reachable.ofConstruct 1920 1080 exEnv exOracleOk 0 exState1 rfl)

/-- C5: Calling `SetSize` with the renderer's current dimensions is a
no-op that returns immediately: the resulting state (including the
exported handle) equals the input state, and no external call is made —
in particular nothing is released or reallocated. -/
theorem c5_resize_noop (s : RendererState) (width height : Int)
    (o : TexOracle) (hw : width = s.width) (hh : height = s.height) :
    setSize s width height o = (s, []) := by
  unfold setSize
  rw [if_pos ⟨hw, hh⟩]

/-- Witness for C5: resizing the 1920×1080 state to 1920×1080 (with a
driver that would fail texture creation were it called) changes nothing
and performs no external call. -/
theorem c5_witness : setSize exState1 1920 1080 exOracleFail =
    (exState1, []) :=
  c5_resize_noop exState1 1920 1080 exOracleFail rfl rfl

/-- C6: Every `CopyTexture` call first waits on the OS mutex with an
unbounded (`INFINITE`) timeout, then flushes the device context if and
only if one exists, then releases the mutex — and it changes no
renderer state, so a flush with no context (and no prior activity) is
safe. -/
theorem c6_flush_locks_and_flushes (s : RendererState) :
    (copyTexture s).1 = s ∧
    (copyTexture s).2 =
      (if s.context.isSome then
        [Event.waitMutex Timeout.infinite, Event.flushContext,
         Event.releaseMutex]
      else
        [Event.waitMutex Timeout.infinite, Event.releaseMutex]) := by
  refine ⟨rfl, ?_⟩
  by_cases hc : s.context.isSome <;> simp [copyTexture, hc]

/-- C7: On hosts older than Windows 10 RTM, device creation (when no
device exists yet) enumerates adapter 0 through the DXGI factory and
passes the enumerated adapter to `D3D11CreateDevice` with driver type
`D3D_DRIVER_TYPE_UNKNOWN`; when enumeration yields no adapter — or the
factory itself is unavailable — it falls back to a null adapter
(driver-default selection) for the device-creation call. -/
theorem c7_old_build_adapter_enumeration (s : RendererState)
    (env : DeviceEnv) (hdev : s.device = none)
    (hold : env.isWindows10RTMOrGreater = false) :
    (env.createDXGIFactory = true →
      (createD3D11Device s env).2.2 =
        [Event.enumAdapters 0,
         Event.d3d11CreateDevice env.enumAdapters0 DriverType.unknown]) ∧
    (env.createDXGIFactory = false →
      (createD3D11Device s env).2.2 =
        [Event.d3d11CreateDevice none DriverType.unknown]) := by
  constructor <;> intro hf <;>
    cases henv : env.d3d11CreateDevice <;>
      simp [createD3D11Device, hdev, hold, hf, henv]

/-- Witness for C7: a pre-RTM host whose factory yields no adapter — the
enumeration call happens and `D3D11CreateDevice` receives a null
adapter. -/
theorem c7_witness :
    (exEnvOld.createDXGIFactory = true →
      (createD3D11Device exState0 exEnvOld).2.2 =
        [Event.enumAdapters 0,
         Event.d3d11CreateDevice exEnvOld.enumAdapters0
           DriverType.unknown]) ∧
    (exEnvOld.createDXGIFactory = false →
      (createD3D11Device exState0 exEnvOld).2.2 =
        [Event.d3d11CreateDevice none DriverType.unknown]) :=
  c7_old_build_adapter_enumeration exState0 exEnvOld rfl rfl

/-- C8: `CreateD3D11Device` is idempotent: if a device already exists it
returns `true` immediately, leaves every state field unchanged and
makes no external call. -/
theorem c8_device_idempotent (s : RendererState) (env : DeviceEnv)
    (hdev : s.device.isSome = true) :
    createD3D11Device s env = (true, s, []) := by
  unfold createD3D11Device
  rw [if_pos hdev]

/-- Witness for C8: calling device creation on the constructed state
(device already present) under an environment that would fail device
creation were it consulted. -/
theorem c8_witness :
    createD3D11Device exState1
      { isWindows10RTMOrGreater := false, createDXGIFactory := false,
        enumAdapters0 := none, d3d11CreateDevice := none } =
      (true, exState1, []) :=
  c8_device_idempotent exState1
    { isWindows10RTMOrGreater := false, createDXGIFactory := false,
      enumAdapters0 := none, d3d11CreateDevice := none } rfl

/-- C9: For every resize call with dimensions different from the current
ones, the stored width and height are updated to the requested values
before the texture is recreated: after the call the stored dimensions
equal the requested ones (even when texture creation fails), and the
`CreateTexture2D` call is issued with the new dimensions. -/
theorem c9_dims_updated_on_resize (s : RendererState) (width height : Int)
    (o : TexOracle) (hne : ¬(width = s.width ∧ height = s.height)) :
    (setSize s width height o).1.width = width ∧
    (setSize s width height o).1.height = height ∧
    Event.createTexture2D width height ∈ (setSize s width height o).2 := by
  unfold setSize
  rw [if_neg hne]
  have hcl := cleanUp_spec { s with width := width, height := height } false
  have hct := createTexture_dims
    (cleanUp { s with width := width, height := height } false).1 o
  rw [hcl.1, hcl.2.1] at hct
  exact ⟨hct.1, hct.2.1, List.mem_append_right _ hct.2.2⟩

/-- Witness for C9: resizing the 1920×1080 state to 1280×720 with a
failing driver still stores 1280×720 and issues `CreateTexture2D` at
1280×720. -/
theorem c9_witness :
    (setSize exState1 1280 720 exOracleFail).1.width = 1280 ∧
    (setSize exState1 1280 720 exOracleFail).1.height = 720 ∧
    Event.createTexture2D 1280 720 ∈
      (setSize exState1 1280 720 exOracleFail).2 :=
  c9_dims_updated_on_resize exState1 1280 720 exOracleFail (by decide)

/-- C10: Every `CopyTexture` call acquires the mutex exactly once and
releases it exactly once, on both the context-present and
context-absent paths, and the release is the last external call before
returning — so acquires and releases stay balanced across any sequence
of calls. -/
theorem c10_mutex_balanced (s : RendererState) :
    ((copyTexture s).2).count (Event.waitMutex Timeout.infinite) = 1 ∧
    ((copyTexture s).2).count Event.releaseMutex = 1 ∧
    ((copyTexture s).2).getLast? = some Event.releaseMutex := by
  by_cases hc : s.context.isSome <;>
    simp [copyTexture, hc, List.count_cons, List.count_nil]
